import Mathlib

/-!
Verification of the promiseFor repository: a shallow embedding of the
pipeline engine (src/pipe.ts, current revision with step provenance),
the error normalizer and throwable adapters (src/error.ts), and the
single-step resolver (src/promiseFor.ts, the options-record revision),
together with theorems settling the frozen claims about the spec.

JavaScript dynamic values are modelled by the inductive type JSVal;
JavaScript truthiness tests (the || operator on possibly falsy fields)
are modelled explicitly by the jsOr/truthy helpers.
-/

namespace PromiseFor

/-- Body of a transport (fetch) Response, as far as the error paths
inspect it: a parseable JSON object (with its raw text and its fields,
string-valued fields suffice for the claims), a plain text body, or a
body whose inspection fails. -/
inductive RespBody where
  | json (raw : String) (fields : List (String × String))
  | text (t : String)
  | unreadable
deriving Repr, DecidableEq

/-- Dynamic JavaScript values flowing through pipelines and the
resolver: undefined, null, booleans, numbers (integers suffice for the
claims), strings, fetch Response objects (ok flag, status, url, body),
and parsed JSON objects with string-valued fields (used as auxiliary
response data). -/
inductive JSVal where
  | undef
  | null
  | bool (b : Bool)
  | num (n : Int)
  | str (s : String)
  | resp (ok : Bool) (status : Int) (url : String) (body : RespBody)
  | jobj (fields : List (String × String))
deriving Repr, DecidableEq

/-- JavaScript truthiness of a value: undefined, null, false, 0 and the
empty string are falsy; every object (Response, parsed JSON) is truthy. -/
def jsTruthy : JSVal → Bool
  | .undef => false
  | .null => false
  | .bool b => b
  | .num n => decide (n ≠ 0)
  | .str s => decide (s ≠ "")
  | .resp _ _ _ _ => true
  | .jobj _ => true

/-- JavaScript s || d for strings: the empty string is falsy. -/
def jsOrS (s d : String) : String := if s = "" then d else s

/-- JavaScript o || d where o is string-or-undefined: undefined and the
empty string both fall back to the default. -/
def jsOrU (o : Option String) (d : String) : String :=
  match o with
  | some s => jsOrS s d
  | none => d

/-- JavaScript truthiness filter for an optional numeric field inside an
|| chain: an absent field and the falsy number 0 both yield nothing. -/
def truthyInt : Option Int → Option Int
  | some n => if n = 0 then none else some n
  | none => none

/-- JavaScript truthiness filter for an optional string field inside an
|| chain: an absent field and the empty string both yield nothing. -/
def truthyStr : Option String → Option String
  | some s => if s = "" then none else some s
  | none => none

/-- JavaScript truthiness filter for the responseData field, whose
tail is || null in the source. -/
def truthyData : Option JSVal → Option JSVal
  | some v => if jsTruthy v then some v else none
  | none => none

/-- Kind of pipeline step recorded in error provenance, from the
stepInfo type field of the ErrorContext interface in src/error.ts. -/
inductive StepType where
  | initialization
  | transform
  | pipe
deriving Repr, DecidableEq

/-- Step provenance attached to an error descriptor, from the stepInfo
member of the ErrorContext interface in src/error.ts: index is the
0-based position of the step in its pipeline segment (-1 marks the
initial operation), type the step kind, pipelineContext the context
string of the segment that defined the step. -/
structure StepInfo where
  index : Int
  type : StepType
  pipelineContext : Option String
deriving Repr, DecidableEq

/-- Canonical error descriptor, from the ErrorContext interface of
src/error.ts (current revision, the one carrying responseData). -/
structure ErrorContext where
  message : String
  name : String
  stack : Option String
  status : Option Int
  url : Option String
  method : Option String
  code : Option String
  responseData : Option JSVal
  context : String
  stepInfo : Option StepInfo
deriving Repr, DecidableEq

/-- Shape of a JavaScript Error instance as probed by normalizeError:
its own message, name, stack, plus the conventional nested transport
locations read by the normalizer (response.status, status,
response.config.url, url, config.method, code, responseData). Fields
the source reads through optional chaining are Options here. -/
structure JsErr where
  message : String
  name : String
  stack : Option String
  respStatus : Option Int
  status : Option Int
  respConfigUrl : Option String
  url : Option String
  configMethod : Option String
  code : Option String
  responseData : Option JSVal
deriving Repr, DecidableEq

/-- Value raised or rejected: either an Error instance, or an arbitrary
non-Error value represented by its string coercion. -/
inductive Thrown where
  | err (e : JsErr)
  | raw (coerced : String)
deriving Repr, DecidableEq

/-- Plain new Error(msg) as built on the error paths of the pipeline:
name Error, no transport fields; the freshly generated stack trace is
abstracted as absent since nothing in the claims reads it. -/
def newError (msg : String) : Thrown :=
  .err { message := msg, name := "Error", stack := none, respStatus := none,
         status := none, respConfigUrl := none, url := none,
         configMethod := none, code := none, responseData := none }

/-- normalizeError from src/error.ts (current revision): for an Error
instance, copy message/name/stack with || fallbacks, probe the nested
transport locations through || chains, copy responseData; for a
non-Error value, synthesize an UnknownError descriptor from its string
coercion. Attach the context and, when given, the step details. -/
def normalizeError (err : Thrown) (context : String)
    (stepDetails : Option StepInfo) : ErrorContext :=
  let base : ErrorContext :=
    match err with
    | .err e =>
      { message := jsOrS e.message "Unknown error"
        name := jsOrS e.name "Error"
        stack := truthyStr e.stack
        status := (truthyInt e.respStatus).orElse (fun _ => truthyInt e.status)
        url := (truthyStr e.respConfigUrl).orElse (fun _ => truthyStr e.url)
        method := truthyStr e.configMethod
        code := truthyStr e.code
        responseData := truthyData e.responseData
        context := context
        stepInfo := none }
    | .raw s =>
      { message := jsOrS s "Unknown error"
        name := "UnknownError"
        stack := none, status := none, url := none, method := none
        code := none, responseData := none
        context := context
        stepInfo := none }
  match stepDetails with
  | some sd => { base with stepInfo := some sd }
  | none => base

/-- Throwable adapter PipelineError from src/error.ts: a raise-able
object built from one descriptor. -/
structure PipelineError where
  message : String
  name : String
  errorContext : ErrorContext
  statusCode : Int
  stack : Option String
deriving Repr, DecidableEq

/-- Constructor of PipelineError: message copied from the descriptor,
name fixed to the sentinel, descriptor carried verbatim, statusCode from
errorContext.status || 500 (so the falsy status 0 also defaults), stack
kept when the descriptor has a truthy one (the stack the Error base
class generates itself is abstracted as absent). -/
def PipelineError.fromContext (e : ErrorContext) : PipelineError :=
  { message := e.message
    name := "PipelineError"
    errorContext := e
    statusCode := match e.status with
      | some s => if s = 0 then 500 else s
      | none => 500
    stack := truthyStr e.stack }

/-- Throwable adapter PromiseForError from src/error.ts: identical to
PipelineError apart from its sentinel name. -/
structure PromiseForError where
  message : String
  name : String
  errorContext : ErrorContext
  statusCode : Int
  stack : Option String
deriving Repr, DecidableEq

/-- Constructor of PromiseForError, mirroring PipelineError.fromContext
with the other sentinel name. -/
def PromiseForError.fromContext (e : ErrorContext) : PromiseForError :=
  { message := e.message
    name := "PromiseForError"
    errorContext := e
    statusCode := match e.status with
      | some s => if s = 0 then 500 else s
      | none => 500
    stack := truthyStr e.stack }

/-- Expected statusCode of a throwable adapter, written as the spec
reads: the descriptor status when present and truthy (non-zero), else
the default 500. -/
def jsStatusOr500 : Option Int → Int
  | some s => if s = 0 then 500 else s
  | none => 500

/-- Settled outcome of awaiting an asynchronous computation or of
calling a user-supplied step function: a resolved value or a
raised/rejected value. Synchronous throws and asynchronous rejections
are identified, since every call site awaits inside try/catch. -/
inductive FnResult where
  | ret (v : JSVal)
  | throws (t : Thrown)

/-- Initial producer accepted by pipeFor and promiseFor: either an
already-created promise (modelled by its eventual settlement) or a
zero-argument factory returning one. -/
inductive Producer where
  | ready (r : FnResult)
  | factory (f : Unit → FnResult)

/-- Evaluation of the source expression typeof initial === "function" ?
initial() : initial, followed by awaiting the resulting promise. -/
def resolveProducer : Producer → FnResult
  | .ready r => r
  | .factory f => f ()

/-- One chained step declaration: a transform or a pipe, with its
user-supplied function and its optional stepContext argument. -/
inductive StepDecl where
  | transform (fn : JSVal → FnResult) (stepContext : Option String)
  | pipe (fn : JSVal → FnResult) (stepContext : Option String)

/-- One settled pipeline stage: the accumulated result pair (value side
and error side), the context string of this segment, and the length of
the accumulated steps list (which is what the source reads as the next
step index). -/
structure Stage where
  value : JSVal
  error : Option ErrorContext
  context : String
  stepsLen : Nat

/-- wrapInitial from src/pipe.ts (current revision): await the initial
producer; a resolved undefined is converted to an initialization error
tagged with index -1, any raise/rejection is normalized with the same
initialization tag; every other value (null included) becomes the value
side of the pair. -/
def wrapInitial (ctx : String) (r : FnResult) : JSVal × Option ErrorContext :=
  match r with
  | .ret v =>
    if v = JSVal.undef then
      (JSVal.null,
        some (normalizeError (newError "Initial value resolved to undefined.") ctx
          (some { index := -1, type := .initialization, pipelineContext := some ctx })))
    else (v, none)
  | .throws t =>
    (JSVal.null,
      some (normalizeError t ctx
        (some { index := -1, type := .initialization, pipelineContext := some ctx })))

/-- Constructor of the Pipeline class as called by pipeFor: the context
defaults to "Pipeline initialization" only when the argument is absent
(JavaScript default parameters fire on undefined only), the steps list
starts empty, and the pair is the wrapped initial resolution. The
constructor assigns this.promise = this.wrapInitial(initial) at
construction time, so the producer is resolved here, not at execute. -/
def pipeForStage (p : Producer) (c : Option String) : Stage :=
  let ctx := c.getD "Pipeline initialization"
  let pair := wrapInitial ctx (resolveProducer p)
  { value := pair.1, error := pair.2, context := ctx, stepsLen := 0 }

/-- Application of one chained step to a settled stage, from the
transform and pipe methods of src/pipe.ts (current revision). Returns
the new stage and whether the user-supplied function was invoked.
An existing error propagates untouched; a transform rejects a null
input and an undefined result; a pipe rejects a null or undefined
input and passes any result through; fresh errors are tagged with this
step index, kind, and the context of the defining segment. The new
stage context becomes the final step context and the steps list grows
by one. -/
def applyStep (st : Stage) (s : StepDecl) : Stage × Bool :=
  match s with
  | .transform fn stepCtx =>
    let stepIndex := st.stepsLen
    let finalCtx := jsOrU stepCtx ("Transform step " ++ toString stepIndex)
    let info : StepInfo :=
      { index := (stepIndex : Int), type := .transform, pipelineContext := some st.context }
    match st.error with
    | some e =>
      ({ value := JSVal.null, error := some e, context := finalCtx,
         stepsLen := stepIndex + 1 }, false)
    | none =>
      if st.value = JSVal.null then
        ({ value := JSVal.null,
           error := some (normalizeError (newError "Transformation input was null.")
             finalCtx (some info)),
           context := finalCtx, stepsLen := stepIndex + 1 }, false)
      else
        match fn st.value with
        | .throws t =>
          ({ value := JSVal.null,
             error := some (normalizeError t finalCtx (some info)),
             context := finalCtx, stepsLen := stepIndex + 1 }, true)
        | .ret r =>
          if r = JSVal.undef then
            ({ value := JSVal.null,
               error := some (normalizeError (newError "Transformation resulted in undefined")
                 finalCtx (some info)),
               context := finalCtx, stepsLen := stepIndex + 1 }, true)
          else
            ({ value := r, error := none, context := finalCtx,
               stepsLen := stepIndex + 1 }, true)
  | .pipe fn stepCtx =>
    let stepIndex := st.stepsLen
    let finalCtx := jsOrU stepCtx ("Pipe step " ++ toString stepIndex)
    let info : StepInfo :=
      { index := (stepIndex : Int), type := .pipe, pipelineContext := some st.context }
    match st.error with
    | some e =>
      ({ value := JSVal.null, error := some e, context := finalCtx,
         stepsLen := stepIndex + 1 }, false)
    | none =>
      if st.value = JSVal.null || st.value = JSVal.undef then
        ({ value := JSVal.null,
           error := some (normalizeError
             (newError "Pipe input was null or undefined, but NonNullable input was expected.")
             finalCtx (some info)),
           context := finalCtx, stepsLen := stepIndex + 1 }, false)
      else
        match fn st.value with
        | .throws t =>
          ({ value := JSVal.null,
             error := some (normalizeError t finalCtx (some info)),
             context := finalCtx, stepsLen := stepIndex + 1 }, true)
        | .ret r =>
          ({ value := r, error := none, context := finalCtx,
             stepsLen := stepIndex + 1 }, true)

/-- Sequential execution of a list of chained steps on a settled stage,
collecting, besides the final stage, the 0-based indices of the steps
whose user-supplied function was actually invoked. -/
def runSteps : Stage → List StepDecl → Stage × List Nat
  | st, [] => (st, [])
  | st, s :: rest =>
    let step := applyStep st s
    let restRun := runSteps step.1 rest
    (restRun.1, (if step.2 then [st.stepsLen] else []) ++ restRun.2)

/-- Whole chain: pipeFor(p, c) followed by the given chained steps; the
terminal execute() returns the final stage pair unchanged, so the final
stage here is the executed result. -/
def runChain (p : Producer) (c : Option String) (steps : List StepDecl) :
    Stage × List Nat :=
  runSteps (pipeForStage p c) steps

/-- Number of invocations of a factory producer during the synchronous
prefix of new Pipeline(initial, context). The constructor runs
this.promise = this.wrapInitial(initial), and a call of the async
method wrapInitial executes its body synchronously up to the first
suspension; the awaited operand typeof initial === "function" ?
initial() : initial is therefore evaluated inside the constructor,
invoking the factory once. A ready promise involves no invocation. -/
def factoryCallsInConstructor : Producer → Nat
  | .factory _ => 1
  | .ready _ => 0

/-- Number of producer invocations performed by execute(): the method
returns the stored this.promise without re-running wrapInitial, so no
producer is ever invoked there, however often execute is called. -/
def factoryCallsInExecute : Producer → Nat := fun _ => 0

/-- Choice between the two call conventions of promiseFor for its
second argument: absent, a legacy positional post-processor function,
or an options record with optional postProcessor and context members. -/
inductive PFArg2 where
  | noArg
  | fn (f : JSVal → FnResult)
  | options (postProcessor : Option (JSVal → FnResult)) (context : Option String)

/-- Default context of the single-step resolver, naming ordinary
promise resolution failure. -/
def defaultPFCtx : String := "Error occurred during promise resolution"

/-- Parameter parsing of promiseFor (src/promiseFor.ts, current
revision): a function second argument is the legacy positional
post-processor and a truthy legacyContext overrides the default; an
options record supplies both members, its context falling back to the
default when absent or falsy; with no second argument a truthy
legacyContext still overrides the default. -/
def parseParams : PFArg2 → Option String → Option (JSVal → FnResult) × String
  | .noArg, lc => (none, jsOrU lc defaultPFCtx)
  | .fn f, lc => (some f, jsOrU lc defaultPFCtx)
  | .options pp c, _ => (pp, jsOrU c defaultPFCtx)

/-- Test resolvedValue instanceof Response && !resolvedValue.ok. -/
def isNonOkResp : JSVal → Bool
  | .resp ok _ _ _ => !ok
  | _ => false

/-- Status field of a Response value (only read under isNonOkResp). -/
def respStatusOf : JSVal → Int
  | .resp _ s _ _ => s
  | _ => 0

/-- Url field of a Response value (only read under isNonOkResp). -/
def respUrlOf : JSVal → String
  | .resp _ _ u _ => u
  | _ => ""

/-- HTTPError thrown by the in-repository promiseFor for a non-ok
Response: generic status-line message, name HTTPError, the status and
url of the response, no responseData. -/
def srcHTTPError (s : Int) (u : String) : JsErr :=
  { message := "HTTP error! status: " ++ toString s
    name := "HTTPError"
    stack := none, respStatus := none, status := some s
    respConfigUrl := none, url := some u
    configMethod := none, code := none, responseData := none }

/-- Application of the optional post-processor inside the try block of
promiseFor: its result (awaited, so synchronous and asynchronous
post-processors behave alike) becomes the value side; a raise or
rejection is normalized with the parsed context, the value side staying
null. -/
def applyPost (post : Option (JSVal → FnResult)) (ctx : String) (v : JSVal) :
    JSVal × Option ErrorContext :=
  match post with
  | none => (v, none)
  | some f =>
    match f v with
    | .ret r => (r, none)
    | .throws t => (JSVal.null, some (normalizeError t ctx none))

/-- promiseFor from src/promiseFor.ts (current revision): parse the
calling convention, resolve the producer, convert a non-ok Response
into a thrown HTTPError, then apply the post-processor; every failure
in the try block is normalized with the parsed context and returned as
the error side of the pair. -/
def promiseForSrc (p : Producer) (arg2 : PFArg2) (lc : Option String) :
    JSVal × Option ErrorContext :=
  let pc := parseParams arg2 lc
  match resolveProducer p with
  | .throws t => (JSVal.null, some (normalizeError t pc.2 none))
  | .ret v =>
    if isNonOkResp v then
      (JSVal.null,
        some (normalizeError (Thrown.err (srcHTTPError (respStatusOf v) (respUrlOf v))) pc.2 none))
    else applyPost pc.1 pc.2 v

/-- Modelled from the spec: the domain-failure message extraction of
the Single-Step Resolver is missing from src (only its tests in
src/test/promiseFor.test.ts and the responseData declarations in
src/src/error.ts are present). Per spec section 4.2, for a non-success
response the extractor prefers a structured message/error field inside
a parseable body, else falls back to the raw body text, else to the
generic status-line message; inspection failure also falls back to the
generic message. -/
def extractHttpMessage (status : Int) (b : RespBody) : String :=
  let generic := "HTTP error! status: " ++ toString status
  match b with
  | .json raw fields =>
    match (fields.lookup "message").orElse (fun _ => fields.lookup "error") with
    | some m => jsOrS m (jsOrS raw generic)
    | none => jsOrS raw generic
  | .text t => jsOrS t generic
  | .unreadable => generic

/-- Modelled from the spec: the complete parsed or raw body preserved
as auxiliary response data on the synthesized failure (spec section
4.2); nothing is preserved when the body is unreadable. -/
def parsedBodyData : RespBody → Option JSVal
  | .json _ fields => some (.jobj fields)
  | .text t => some (.str t)
  | .unreadable => none

/-- Modelled from the spec: the typed failure synthesized by the
Domain-Failure Classifier for a non-success response, carrying the
extracted message, the HTTPError classification, the status and url of
the response, and the body as responseData. -/
def classifyThrow (s : Int) (u : String) (b : RespBody) : JsErr :=
  { message := extractHttpMessage s b
    name := "HTTPError"
    stack := none, respStatus := none, status := some s
    respConfigUrl := none, url := some u
    configMethod := none, code := none
    responseData := parsedBodyData b }

/-- Modelled from the spec: the Single-Step Resolver with the missing
domain-failure extraction in place of the generic HTTPError, identical
to promiseForSrc otherwise. -/
def promiseForModelled (p : Producer) (arg2 : PFArg2) (lc : Option String) :
    JSVal × Option ErrorContext :=
  let pc := parseParams arg2 lc
  match resolveProducer p with
  | .throws t => (JSVal.null, some (normalizeError t pc.2 none))
  | .ret v =>
    match v with
    | .resp false s u b =>
      (JSVal.null, some (normalizeError (Thrown.err (classifyThrow s u b)) pc.2 none))
    | v => applyPost pc.1 pc.2 v

/-- Producer resolving to the number 1 (Promise.resolve(1)). -/
def oneProducer : Producer := .ready (.ret (.num 1))

/-- Producer rejecting with new Error("boom"). -/
def failProducer : Producer := .ready (.throws (newError "boom"))

/-- Transform step whose function returns null. -/
def nullTransformStep : StepDecl := .transform (fun _ => .ret JSVal.null) none

/-- Transform step whose function throws new Error("boom"), with no
explicit step context. -/
def boomStep : StepDecl := .transform (fun _ => .throws (newError "boom")) none

/-- Transform step returning its input unchanged. -/
def idStep : StepDecl := .transform (fun v => .ret v) none

/-- Pipe step resolving to its input unchanged. -/
def pipeIdStep : StepDecl := .pipe (fun v => .ret v) none

/-- Two-step chain whose first step throws. -/
def boomChain : List StepDecl := [boomStep, idStep]

/-- Descriptor produced by the first step of boomChain under the
default contexts: normalized new Error("boom") at index 0 of a
transform defined by the root segment. -/
def boomErr : ErrorContext :=
  normalizeError (newError "boom") "Transform step 0"
    (some { index := 0, type := .transform, pipelineContext := some "Pipeline initialization" })

/-- Already-failed stage carrying boomErr, as produced by running
boomChain one step past the failure point. -/
def failedStage : Stage :=
  { value := JSVal.null, error := some boomErr, context := "Transform step 0", stepsLen := 1 }

/-- Steps chained after the failure for the absorption witness. -/
def afterFailSteps : List StepDecl := [idStep, pipeIdStep]

/-- Factory producer returning Promise.resolve(5). -/
def prodFive : Unit → FnResult := fun _ => .ret (.num 5)

/-- Descriptor with the falsy status 0, as the ErrorContext interface
admits (status is an arbitrary optional number). -/
def zeroStatusCtx : ErrorContext :=
  { message := "m", name := "E", stack := none, status := some 0, url := none,
    method := none, code := none, responseData := none, context := "c", stepInfo := none }

theorem normalizeError_stepInfo (t : Thrown) (ctx : String) (si : StepInfo) :
    (normalizeError t ctx (some si)).stepInfo = some si := by
  cases t <;> rfl

theorem normalizeError_context (t : Thrown) (ctx : String) (sd : Option StepInfo) :
    (normalizeError t ctx sd).context = ctx := by
  cases t <;> cases sd <;> rfl

theorem applyStep_stepsLen (st : Stage) (s : StepDecl) :
    (applyStep st s).1.stepsLen = st.stepsLen + 1 := by
  cases s <;> simp only [applyStep] <;> (cases st.error) <;> dsimp only <;>
    (repeat' split) <;> rfl

theorem applyStep_absorb (st : Stage) (s : StepDecl) (e : ErrorContext)
    (h : st.error = some e) :
    (applyStep st s).1.error = some e ∧ (applyStep st s).1.value = JSVal.null ∧
      (applyStep st s).2 = false := by
  cases s <;> simp [applyStep, h]

theorem applyStep_fresh_error (st : Stage) (s : StepDecl) (e : ErrorContext)
    (h : st.error = none) (hfail : (applyStep st s).1.error = some e) :
    ∃ ty, e.stepInfo =
      some { index := (st.stepsLen : Int), type := ty, pipelineContext := some st.context } := by
  cases s with
  | transform fn stepCtx =>
    refine ⟨.transform, ?_⟩
    simp only [applyStep, h] at hfail
    repeat' split at hfail
    all_goals dsimp only at hfail
    all_goals first
      | exact (Option.some.inj hfail) ▸ normalizeError_stepInfo _ _ _
      | exact Option.noConfusion hfail
  | pipe fn stepCtx =>
    refine ⟨.pipe, ?_⟩
    simp only [applyStep, h] at hfail
    repeat' split at hfail
    all_goals dsimp only at hfail
    all_goals first
      | exact (Option.some.inj hfail) ▸ normalizeError_stepInfo _ _ _
      | exact Option.noConfusion hfail

theorem applyStep_value_or_noerror (st : Stage) (s : StepDecl) :
    (applyStep st s).1.value = JSVal.null ∨ (applyStep st s).1.error = none := by
  cases s <;> simp only [applyStep] <;> (cases st.error) <;> dsimp only <;>
    (repeat' split) <;> simp

theorem applyStep_value_null_of_error (st : Stage) (s : StepDecl) (e : ErrorContext)
    (hfail : (applyStep st s).1.error = some e) :
    (applyStep st s).1.value = JSVal.null := by
  rcases applyStep_value_or_noerror st s with h | h
  · exact h
  · rw [h] at hfail
    cases hfail

theorem runSteps_absorb (st : Stage) (steps : List StepDecl) (e : ErrorContext)
    (h : st.error = some e) :
    (runSteps st steps).1.error = some e ∧ (runSteps st steps).2 = [] := by
  induction steps generalizing st with
  | nil => exact ⟨h, rfl⟩
  | cons s rest ih =>
    obtain ⟨h1, _, h3⟩ := applyStep_absorb st s e h
    have h4 := ih (applyStep st s).1 h1
    simp [runSteps, h3, h4.1, h4.2]

theorem runSteps_stepsLen (st : Stage) (steps : List StepDecl) :
    (runSteps st steps).1.stepsLen = st.stepsLen + steps.length := by
  induction steps generalizing st with
  | nil => rfl
  | cons s rest ih =>
    simp only [runSteps, List.length_cons]
    rw [ih (applyStep st s).1, applyStep_stepsLen]
    omega

theorem runSteps_append (st : Stage) (xs ys : List StepDecl) :
    (runSteps st (xs ++ ys)).1 = (runSteps (runSteps st xs).1 ys).1 ∧
      (runSteps st (xs ++ ys)).2 =
        (runSteps st xs).2 ++ (runSteps (runSteps st xs).1 ys).2 := by
  induction xs generalizing st with
  | nil => exact ⟨rfl, rfl⟩
  | cons s rest ih =>
    simp only [List.cons_append, runSteps, List.append_eq]
    have h := ih (applyStep st s).1
    exact ⟨h.1, by rw [h.2, List.append_assoc]⟩

theorem runSteps_invoked_lt (st : Stage) (steps : List StepDecl) (j : Nat)
    (hj : j ∈ (runSteps st steps).2) : j < st.stepsLen + steps.length := by
  induction steps generalizing st with
  | nil => simp [runSteps] at hj
  | cons s rest ih =>
    simp only [runSteps, List.mem_append] at hj
    rcases hj with hj | hj
    · rcases Bool.eq_false_or_eq_true (applyStep st s).2 with h2 | h2 <;>
        simp [h2] at hj
      subst hj
      simp only [List.length_cons]
      omega
    · have hb := ih (applyStep st s).1 hj
      rw [applyStep_stepsLen] at hb
      simp only [List.length_cons]
      omega

theorem runChain_error_value_null (p : Producer) (c : Option String)
    (steps : List StepDecl) (hs : ((runChain p c steps).1.error).isSome = true) :
    (runChain p c steps).1.value = JSVal.null := by
  unfold runChain at *
  induction steps using List.reverseRecOn with
  | nil =>
    unfold pipeForStage wrapInitial at *
    cases hr : resolveProducer p with
    | ret v =>
      simp only [runSteps, hr] at hs ⊢
      by_cases hu : v = JSVal.undef
      · simp [hu]
      · simp [if_neg hu] at hs
    | throws t => simp [runSteps, hr]
  | append_singleton xs s ih =>
    have hA := runSteps_append (pipeForStage p c) xs [s]
    rw [hA.1] at hs ⊢
    set st := (runSteps (pipeForStage p c) xs).1 with hst
    simp only [runSteps] at hs ⊢
    cases he : (applyStep st s).1.error with
    | none => simp [he] at hs
    | some e => exact applyStep_value_null_of_error st s e he

theorem promiseForSrc_error_value_null (p : Producer) (arg2 : PFArg2)
    (lc : Option String) (hs : ((promiseForSrc p arg2 lc).2).isSome = true) :
    (promiseForSrc p arg2 lc).1 = JSVal.null := by
  unfold promiseForSrc at *
  cases hr : resolveProducer p with
  | throws t => simp [hr]
  | ret v =>
    simp only [hr] at hs ⊢
    by_cases hok : isNonOkResp v = true
    · simp [hok]
    · simp only [Bool.not_eq_true] at hok
      simp only [hok, Bool.false_eq_true, if_neg] at hs ⊢
      unfold applyPost at *
      cases hp : (parseParams arg2 lc).1 with
      | none => simp [hp] at hs
      | some f =>
        simp only [hp] at hs ⊢
        cases hf : f v with
        | ret r => simp [hf] at hs
        | throws t => simp [hf]

/-- C1 counterexample: the claim demands that a transform whose
function returns null still settles to a pair with exactly one
populated side, but the source only guards against an undefined
transform result, so pipeFor(Promise.resolve(1)).transform(() =>
null).execute() settles to the pair [null, null], with the value side
empty and no error descriptor: both sides are empty. -/
theorem C1_counterexample :
    (runChain oneProducer none [nullTransformStep]).1.value = JSVal.null ∧
      (runChain oneProducer none [nullTransformStep]).1.error = none := by
  exact ⟨rfl, rfl⟩

/-- C1 (amended): every settled pair of a pipeline chain or of a
promiseFor call has at most one populated side: whenever the error side
carries a descriptor, the value side is null; both sides can however be
empty when a producer resolves to null, a transform returns null, or a
pipe resolves to undefined. -/
theorem C1_pair_at_most_one_populated :
    (∀ p c steps, ((runChain p c steps).1.error).isSome = true →
        (runChain p c steps).1.value = JSVal.null) ∧
      (∀ p arg2 lc, ((promiseForSrc p arg2 lc).2).isSome = true →
        (promiseForSrc p arg2 lc).1 = JSVal.null) :=
  ⟨runChain_error_value_null, promiseForSrc_error_value_null⟩

/-- C1 witness: the amended theorem applied to a rejecting producer,
both as a one-stage pipeline and as a promiseFor call. -/
theorem C1_pair_at_most_one_populated_witness :
    (runChain failProducer none []).1.value = JSVal.null ∧
      (promiseForSrc failProducer PFArg2.noArg none).1 = JSVal.null :=
  ⟨C1_pair_at_most_one_populated.1 failProducer none [] (by decide),
   C1_pair_at_most_one_populated.2 failProducer PFArg2.noArg none (by decide)⟩

/-- C3 (confirmed): once a stage carries an error descriptor, every
subsequently chained transform or pipe propagates that very descriptor
unchanged (hence with identical message, name, context and stepInfo),
no user function of any later step is invoked, and this holds along any
list of further chained steps. -/
theorem C3_failure_absorbing (st : Stage) (e : ErrorContext) (steps : List StepDecl)
    (h : st.error = some e) :
    (∀ s, (applyStep st s).1.error = some e) ∧
      (runSteps st steps).1.error = some e ∧ (runSteps st steps).2 = [] :=
  ⟨fun s => (applyStep_absorb st s e h).1,
   (runSteps_absorb st steps e h).1, (runSteps_absorb st steps e h).2⟩

/-- C3 witness: the absorption theorem applied to a concrete failed
stage followed by a transform and a pipe. -/
theorem C3_failure_absorbing_witness :
    ((applyStep failedStage idStep).1.error = some boomErr) ∧
      (runSteps failedStage afterFailSteps).1.error = some boomErr ∧
      (runSteps failedStage afterFailSteps).2 = [] :=
  ⟨(C3_failure_absorbing failedStage boomErr afterFailSteps rfl).1 idStep,
   (C3_failure_absorbing failedStage boomErr afterFailSteps rfl).2.1,
   (C3_failure_absorbing failedStage boomErr afterFailSteps rfl).2.2⟩

/-- C5 counterexample: the claim says constructing a pipeline via
pipeFor does not invoke the initial producer at construction time, but
the Pipeline constructor assigns this.promise = this.wrapInitial(initial),
whose synchronous prefix evaluates initial() at once: for the factory
producer prodFive the factory is invoked once during construction (and
the constructed stage already contains the resolved outcome). -/
theorem C5_counterexample :
    factoryCallsInConstructor (Producer.factory prodFive) = 1 ∧
      pipeForStage (Producer.factory prodFive) none =
        pipeForStage (Producer.ready (prodFive ())) none :=
  ⟨rfl, rfl⟩

/-- C5 (amended): the initial producer is resolved exactly once, but
eagerly at construction time rather than lazily at await: constructing
from a factory invokes it exactly once, execute() never invokes any
producer, and construction from a factory is the same as construction
from the promise the factory returns. -/
theorem C5_eager_single_resolution (f : Unit → FnResult) (p : Producer) (c : Option String) :
    factoryCallsInConstructor (Producer.factory f) = 1 ∧
      factoryCallsInExecute p = 0 ∧
      pipeForStage (Producer.factory f) c = pipeForStage (Producer.ready (f ())) c :=
  ⟨rfl, rfl, rfl⟩

/-- C6 counterexample: the claim says an initial producer resolving to
null or undefined settles the pipeline to an error pair, but
wrapInitial only tests for undefined: pipeFor(Promise.resolve(null))
settles to the pair [null, null], with no error descriptor at all. -/
theorem C6_counterexample :
    (runChain (Producer.ready (FnResult.ret JSVal.null)) none []).1.error = none ∧
      (runChain (Producer.ready (FnResult.ret JSVal.null)) none []).1.value = JSVal.null :=
  ⟨rfl, rfl⟩

/-- C6 (amended): only an initial value resolving to undefined is
treated as empty at initialization, settling to an error descriptor
with message "Initial value resolved to undefined.", context equal to
the pipeline context, and stepInfo {index: -1, type: initialization,
pipelineContext: the pipeline context}; an initial null flows into a
[null, null] pair, while the legitimately falsy values 0 and false flow
through as success. -/
theorem C6_initial_empty_policy (c : Option String) :
    ((runChain (Producer.ready (FnResult.ret JSVal.undef)) c []).1.error =
        some (normalizeError (newError "Initial value resolved to undefined.")
          (c.getD "Pipeline initialization")
          (some { index := -1, type := .initialization,
                  pipelineContext := some (c.getD "Pipeline initialization") }))) ∧
      (runChain (Producer.ready (FnResult.ret JSVal.undef)) c []).1.value = JSVal.null ∧
      (runChain (Producer.ready (FnResult.ret JSVal.null)) c []).1.error = none ∧
      (runChain (Producer.ready (FnResult.ret JSVal.null)) c []).1.value = JSVal.null ∧
      (runChain (Producer.ready (FnResult.ret (JSVal.num 0))) c []).1.error = none ∧
      (runChain (Producer.ready (FnResult.ret (JSVal.num 0))) c []).1.value = JSVal.num 0 ∧
      (runChain (Producer.ready (FnResult.ret (JSVal.bool false))) c []).1.error = none ∧
      (runChain (Producer.ready (FnResult.ret (JSVal.bool false))) c []).1.value =
        JSVal.bool false :=
  ⟨rfl, rfl, rfl, rfl, rfl, rfl, rfl, rfl⟩

/-- C7 (confirmed): for every producer, post-processor and context
string, the options-record call promiseFor(p, {postProcessor: f,
context: c}) and the legacy positional call promiseFor(p, f, c) return
identical result pairs; a function in the second argument position is
dispatched as the legacy positional form by parseParams. -/
theorem C7_call_convention_equivalence (p : Producer) (f : JSVal → FnResult) (c : String) :
    promiseForSrc p (PFArg2.options (some f) (some c)) none =
      promiseForSrc p (PFArg2.fn f) (some c) :=
  rfl

/-- C9 counterexample: the claim says the adapters statusCode equals
the descriptor status whenever a status is present, but the source
derives it by errorContext.status || 500, so the present but falsy
status 0 yields 500 instead of 0 in both adapters. -/
theorem C9_counterexample :
    zeroStatusCtx.status = some 0 ∧
      (PipelineError.fromContext zeroStatusCtx).statusCode = 500 ∧
      (PromiseForError.fromContext zeroStatusCtx).statusCode = 500 :=
  ⟨rfl, rfl, rfl⟩

/-- C9 (amended): both throwable adapters copy the descriptor message,
fix their name to the respective sentinel, carry the descriptor
verbatim as errorContext, and set statusCode to the descriptor status
whenever a truthy (non-zero) status is present and to 500 otherwise
(absent or 0), as jsStatusOr500 states. -/
theorem C9_adapter_fields (d : ErrorContext) :
    (PipelineError.fromContext d).message = d.message ∧
      (PipelineError.fromContext d).name = "PipelineError" ∧
      (PipelineError.fromContext d).errorContext = d ∧
      (PipelineError.fromContext d).statusCode = jsStatusOr500 d.status ∧
      (PromiseForError.fromContext d).message = d.message ∧
      (PromiseForError.fromContext d).name = "PromiseForError" ∧
      (PromiseForError.fromContext d).errorContext = d ∧
      (PromiseForError.fromContext d).statusCode = jsStatusOr500 d.status := by
  refine ⟨rfl, rfl, rfl, ?_, rfl, rfl, rfl, ?_⟩ <;>
    cases h : d.status <;>
    simp [PipelineError.fromContext, PromiseForError.fromContext, jsStatusOr500, h]

/-- C2 (confirmed): in every chain of length at least 2 whose first i
steps succeed and whose step i (0-based) produces an error, the final
pair of the whole chain carries that very descriptor, the descriptor
carries stepInfo.index = i, and the user-supplied function of no step
j > i is ever invoked. -/
theorem C2_short_circuit (p : Producer) (c : Option String) (steps : List StepDecl)
    (i : Nat) (e : ErrorContext) (hlen : 2 ≤ steps.length) (hi : i < steps.length)
    (hok : (runChain p c (steps.take i)).1.error = none)
    (hfail : (runChain p c (steps.take (i+1))).1.error = some e) :
    (runChain p c steps).1.error = some e ∧
      (∃ si, e.stepInfo = some si ∧ si.index = (i : Int)) ∧
      ∀ j, i < j → j ∉ (runChain p c steps).2 := by
  simp only [runChain] at hok hfail ⊢
  have htake : steps.take (i+1) = steps.take i ++ [steps[i]] := by
    rw [List.take_succ, List.getElem?_eq_getElem hi]
    rfl
  have happ1 := runSteps_append (pipeForStage p c) (steps.take i) [steps[i]]
  have hsti_len : (runSteps (pipeForStage p c) (steps.take i)).1.stepsLen = i := by
    rw [runSteps_stepsLen]
    have hl : (steps.take i).length = i := by
      rw [List.length_take]
      omega
    have h0 : (pipeForStage p c).stepsLen = 0 := rfl
    omega
  have hone1 : (runSteps (pipeForStage p c) (steps.take (i+1))).1 =
      (applyStep (runSteps (pipeForStage p c) (steps.take i)).1 steps[i]).1 := by
    rw [htake, happ1.1]
    simp [runSteps]
  rw [hone1] at hfail
  obtain ⟨ty, hsi⟩ := applyStep_fresh_error _ steps[i] e hok hfail
  rw [hsti_len] at hsi
  have hsplit : steps = steps.take (i+1) ++ steps.drop (i+1) :=
    (List.take_append_drop _ _).symm
  have happ2 := runSteps_append (pipeForStage p c) (steps.take (i+1)) (steps.drop (i+1))
  have hstF : (runSteps (pipeForStage p c) (steps.take (i+1))).1.error = some e := by
    rw [hone1]
    exact hfail
  have habs := runSteps_absorb _ (steps.drop (i+1)) e hstF
  refine ⟨?_, ⟨_, hsi, rfl⟩, ?_⟩
  · rw [hsplit, happ2.1]
    exact habs.1
  · intro j hij hmem
    rw [hsplit, happ2.2, habs.2, List.append_nil] at hmem
    have hb := runSteps_invoked_lt (pipeForStage p c) (steps.take (i+1)) j hmem
    have hlt : (steps.take (i+1)).length ≤ i + 1 := by
      rw [List.length_take]
      omega
    have h0 : (pipeForStage p c).stepsLen = 0 := rfl
    omega

/-- C2 witness: the short-circuit theorem applied to a two-step chain
over Promise.resolve(1) whose first transform throws new
Error("boom"): the final error is the descriptor stamped at step 0 and
the second step is never invoked. -/
theorem C2_short_circuit_witness :
    (runChain oneProducer none boomChain).1.error = some boomErr ∧
      (∃ si, boomErr.stepInfo = some si ∧ si.index = ((0 : Nat) : Int)) ∧
      ∀ j, 0 < j → j ∉ (runChain oneProducer none boomChain).2 :=
  C2_short_circuit oneProducer none boomChain 0 boomErr (by decide) (by decide)
    (by decide) (by decide)

/-- C4 (confirmed against the spec-modelled extractor): when the
resolver resolves to a non-success response whose JSON body is an
object with message field "invalid credentials", the returned pair has
a null value side and a descriptor with message "invalid credentials",
name HTTPError, status equal to the (non-zero) response status, and
responseData equal to the parsed body. -/
theorem C4_domain_failure_extraction (s : Int) (hs : s ≠ 0) (raw u : String) :
    (promiseForModelled (Producer.ready (FnResult.ret (JSVal.resp false s u
        (RespBody.json raw [("message", "invalid credentials")])))) PFArg2.noArg none).1 =
      JSVal.null ∧
      ∃ d, (promiseForModelled (Producer.ready (FnResult.ret (JSVal.resp false s u
          (RespBody.json raw [("message", "invalid credentials")])))) PFArg2.noArg none).2 =
          some d ∧
        d.message = "invalid credentials" ∧ d.name = "HTTPError" ∧ d.status = some s ∧
        d.responseData = some (JSVal.jobj [("message", "invalid credentials")]) := by
  refine ⟨rfl, _, rfl, rfl, rfl, ?_, rfl⟩
  simp [normalizeError, classifyThrow, truthyInt, hs]

/-- C4 witness: the extraction theorem applied at status 400, empty raw
body text and url u. -/
theorem C4_domain_failure_extraction_witness :
    (promiseForModelled (Producer.ready (FnResult.ret (JSVal.resp false 400 "u"
        (RespBody.json "" [("message", "invalid credentials")])))) PFArg2.noArg none).1 =
      JSVal.null ∧
      ∃ d, (promiseForModelled (Producer.ready (FnResult.ret (JSVal.resp false 400 "u"
          (RespBody.json "" [("message", "invalid credentials")])))) PFArg2.noArg none).2 =
          some d ∧
        d.message = "invalid credentials" ∧ d.name = "HTTPError" ∧ d.status = some 400 ∧
        d.responseData = some (JSVal.jobj [("message", "invalid credentials")]) :=
  C4_domain_failure_extraction 400 (by decide) "" "u"

/-- C8 counterexample: the claim says a failing post-processor is
normalized with a post-processing-specific context distinct from the
default resolution context, but the current resolver normalizes every
failure of its try block with the single parsed context: with no
context supplied, a throwing post-processor yields a descriptor whose
context is exactly the default "Error occurred during promise
resolution". -/
theorem C8_counterexample :
    ((promiseForSrc oneProducer
        (PFArg2.options (some (fun _ => FnResult.throws (newError "boom"))) none) none).2.map
      ErrorContext.context) = some "Error occurred during promise resolution" ∧
      (promiseForSrc oneProducer
        (PFArg2.options (some (fun _ => FnResult.throws (newError "boom"))) none) none).1 =
      JSVal.null :=
  ⟨rfl, rfl⟩

/-- C8 (amended): when the post-processor fails, promiseFor returns a
pair with a null value side and a descriptor normalized with the
caller-supplied context or, absent one, with the same default context
that names ordinary promise resolution failure; the resolver has no
distinct post-processing context. -/
theorem C8_postprocessor_failure_context (v : JSVal) (t : Thrown) (copt : Option String)
    (hv : isNonOkResp v = false) :
    promiseForSrc (Producer.ready (FnResult.ret v))
        (PFArg2.options (some (fun _ => FnResult.throws t)) copt) none =
      (JSVal.null, some (normalizeError t (jsOrU copt defaultPFCtx) none)) := by
  simp [promiseForSrc, resolveProducer, parseParams, hv, applyPost]

/-- C8 witness: the amended theorem applied to a resolved number, a
throwing post-processor and an explicit context. -/
theorem C8_postprocessor_failure_context_witness :
    promiseForSrc (Producer.ready (FnResult.ret (JSVal.num 1)))
        (PFArg2.options (some (fun _ => FnResult.throws (newError "pp"))) (some "ctx")) none =
      (JSVal.null, some (normalizeError (newError "pp") (jsOrU (some "ctx") defaultPFCtx) none)) :=
  C8_postprocessor_failure_context (JSVal.num 1) (newError "pp") (some "ctx") rfl

/-- C10 (confirmed): the transport classification lives only in
promiseFor, never in the pipeline engine: a non-ok Response reaching a
pipeline as its initial value, as a transform result or as a pipe
result settles as a success pair carrying the Response with an empty
error side, whereas promiseFor resolving to the same Response returns a
pair with a null value side and an HTTPError descriptor. -/
theorem C10_no_domain_classification_in_pipeline (s : Int) (u : String) (b : RespBody)
    (c : Option String) :
    (runChain (Producer.ready (FnResult.ret (JSVal.resp false s u b))) c []).1.value =
        JSVal.resp false s u b ∧
      (runChain (Producer.ready (FnResult.ret (JSVal.resp false s u b))) c []).1.error = none ∧
      (runChain oneProducer c
          [StepDecl.transform (fun _ => FnResult.ret (JSVal.resp false s u b)) none]).1.value =
        JSVal.resp false s u b ∧
      (runChain oneProducer c
          [StepDecl.transform (fun _ => FnResult.ret (JSVal.resp false s u b)) none]).1.error =
        none ∧
      (runChain oneProducer c
          [StepDecl.pipe (fun _ => FnResult.ret (JSVal.resp false s u b)) none]).1.value =
        JSVal.resp false s u b ∧
      (runChain oneProducer c
          [StepDecl.pipe (fun _ => FnResult.ret (JSVal.resp false s u b)) none]).1.error = none ∧
      (promiseForSrc (Producer.ready (FnResult.ret (JSVal.resp false s u b)))
          PFArg2.noArg none).1 = JSVal.null ∧
      ∃ d, (promiseForSrc (Producer.ready (FnResult.ret (JSVal.resp false s u b)))
          PFArg2.noArg none).2 = some d ∧ d.name = "HTTPError" :=
  ⟨rfl, rfl, rfl, rfl, rfl, rfl, rfl, ⟨_, rfl, rfl⟩⟩

end PromiseFor
